import Mathlib

/-!
# ssi-service: did:web method handler, panic-recovery middleware, review workflow

A shallow embedding of

* `pkg/service/did/web.go` (`webHandler.CreateDID`, `GetDID`, `GetDIDs`, `SoftDeleteDID`),
* `pkg/server/middleware/panics.go` (`Panics`),

together with a model of the application workflow exercised by
`integration/steelthread_integration_test.go`.

Go functions returning `(value, error)` are embedded as functions returning `Except Error value`;
functions that mutate a collaborator take its state and return the new state.  The collaborators
that `web.go` only calls (DID storage, key store, the SDK functions) are parameters of the
handlers, so that every path of the handler code, including the failure paths, is present.
-/

set_option autoImplicit false

namespace SSI

/-! ## Errors -/

/-- A Go `error` value, identified with its message. -/
structure Error where
  msg : String
deriving DecidableEq, Repr

/-- Go `errors.New(msg)`. -/
def errorsNew (msg : String) : Error := ⟨msg⟩

/-- Go `errors.Wrap(err, msg)` of `github.com/pkg/errors`: the message is `msg: cause`. -/
def errorsWrap (err : Error) (msg : String) : Error := ⟨msg ++ ": " ++ err.msg⟩

/-! ## Data model used by `web.go` -/

/-- Go `did.Method`, a string type. -/
abbrev Method := String

/-- Go `did.WebMethod`. -/
def WebMethod : Method := "web"

/-- Go `crypto.KeyType`, a string type. -/
abbrev KeyType := String

/-- Go `did.DIDWeb`, a string type; `String()` is the identity conversion. -/
abbrev DIDWeb := String

/-- Go `did.VerificationMethod` (the fields of the SDK type that identify it). -/
structure VerificationMethod where
  ID : String
  Controller : String
  PublicKeyBase58 : String
deriving DecidableEq, Repr

/-- Go `did.Document`: the identifier and the verification methods. -/
structure Document where
  ID : String
  VerificationMethod : List VerificationMethod
deriving DecidableEq, Repr

/-- Go `DefaultStoredDID`, as constructed in `CreateDID`. -/
structure DefaultStoredDID where
  ID : String
  DID : Document
  SoftDeleted : Bool
deriving DecidableEq, Repr

/-- Go `DefaultStoredDID.GetDocument`. -/
def DefaultStoredDID.GetDocument (d : DefaultStoredDID) : Document := d.DID

/-- Go `DefaultStoredDID.IsSoftDeleted`. -/
def DefaultStoredDID.IsSoftDeleted (d : DefaultStoredDID) : Bool := d.SoftDeleted

/-- Go `CreateWebDIDOptions`. -/
structure CreateWebDIDOptions where
  DIDWebID : String
deriving DecidableEq, Repr

/-- A non-nil value of the Go interface `CreateDIDOptions`: a `CreateWebDIDOptions` value;
a value of some other implementing type, of which only the result of `Method()` is
observable by `web.go` (a non-nil `*CreateWebDIDOptions` is such a value, declaring
`did.WebMethod`); or a typed nil pointer such as `(*CreateWebDIDOptions)(nil)`, which is
not equal to nil as an interface value and whose `Method()`, a value-receiver method,
panics on the nil dereference. -/
inductive CreateDIDOptions where
  | web (opts : CreateWebDIDOptions)
  | other (declared : Method)
  | nilPointer
deriving DecidableEq, Repr

/-- Go `CreateDIDOptions.Method()`; `CreateWebDIDOptions.Method` returns `did.WebMethod`.
The result is `none` when the call panics. -/
def CreateDIDOptions.Method : CreateDIDOptions → Option Method
  | .web _ => some WebMethod
  | .other declared => some declared
  | .nilPointer => none

/-- Go type assertion `request.Options.(CreateWebDIDOptions)`: the value and `ok`; on
failure the value is the zero value. -/
def CreateDIDOptions.assertWeb : CreateDIDOptions → CreateWebDIDOptions × Bool
  | .web opts => (opts, true)
  | .other _ => (⟨""⟩, false)
  | .nilPointer => (⟨""⟩, false)

/-- Go `CreateDIDRequest`; `Options` is an interface value and may be nil.  `Method` is the
requested method, by which the service picks the handler; `webHandler.CreateDID` itself
does not read it. -/
structure CreateDIDRequest where
  Method : Method
  KeyType : KeyType
  Options : Option CreateDIDOptions
deriving DecidableEq, Repr

/-- Go `CreateDIDResponse`. -/
structure CreateDIDResponse where
  DID : Document
  PrivateKeyBase58 : String
  KeyType : KeyType
deriving DecidableEq, Repr

/-- Go `GetDIDRequest`, the field read by the handler. -/
structure GetDIDRequest where
  ID : String
deriving DecidableEq, Repr

/-- Go `GetDIDResponse`. -/
structure GetDIDResponse where
  DID : Document
deriving DecidableEq, Repr

/-- Go `GetDIDsResponse`. -/
structure GetDIDsResponse where
  DIDs : List Document
deriving DecidableEq, Repr

/-- Go `DeleteDIDRequest`, the field read by the handler. -/
structure DeleteDIDRequest where
  ID : String
deriving DecidableEq, Repr

/-- Go `keystore.StoreKeyRequest`. -/
structure StoreKeyRequest where
  ID : String
  Typ : KeyType
  Controller : String
  PrivateKeyBase58 : String
deriving DecidableEq, Repr

/-! ## Collaborators of the handler -/

/-- The methods of Go `*Storage` called by `web.go`, over a storage state `σ`.  A write
returns the state it leaves and the error (nil or not); the reads return a pointer (nil or
not) or a slice, or an error. -/
structure Storage (σ : Type) where
  StoreDID : σ → DefaultStoredDID → σ × Option Error
  GetDIDDefault : σ → String → Except Error (Option DefaultStoredDID)
  GetDIDsDefault : σ → String → Except Error (List DefaultStoredDID)

/-- The method of Go `*keystore.Service` called by `web.go`, over a key-store state `κ`. -/
structure KeyStoreService (κ : Type) where
  StoreKey : κ → StoreKeyRequest → κ × Option Error

/-- The functions of the SSI SDK and of the base58 and validation libraries called by
`CreateDID`.  Key generation is random and `IsValid` resolves the DID over the network:
an `Sdk` value fixes their outcome for one call of the handler. -/
structure Sdk where
  PublicKey : Type
  PrivateKey : Type
  IsValidStruct : CreateWebDIDOptions → Option Error
  IsValid : DIDWeb → Bool
  GenerateKeyByKeyType : KeyType → Except Error (PublicKey × PrivateKey)
  PubKeyToBytes : PublicKey → Except Error (List Nat)
  CreateDoc : DIDWeb → KeyType → List Nat → Except Error Document
  PrivKeyToBytes : PrivateKey → Except Error (List Nat)
  base58Encode : List Nat → String

/-- How a call of a Go function of result type `(*α, error)` ends: with a value, with an
error, or in a runtime panic. -/
inductive Outcome (α : Type) where
  | ok (a : α)
  | err (e : Error)
  | panic (msg : String)
deriving DecidableEq, Repr

/-! ## `web.go` -/

section handler

variable {σ κ : Type}

/-- Go `webHandler.CreateDID`: the outcome, and the DID storage and key store it leaves. -/
def CreateDID (storage : Storage σ) (keyStore : KeyStoreService κ) (sdk : Sdk)
    (s : σ) (k : κ) (request : CreateDIDRequest) : Outcome CreateDIDResponse × σ × κ :=
  -- process options
  match request.Options with
  | none => (.err (errorsNew "options cannot be empty"), s, k)
  | some options =>
    let (opts, ok) := options.assertWeb
    -- `!ok || request.Options.Method() != did.WebMethod`: `Method()` is called only when
    -- `ok`, on a `CreateWebDIDOptions` value
    if !ok || options.Method != some WebMethod then
      -- the arguments of `fmt.Errorf` call `request.Options.Method()`
      match options.Method with
      | none => (.panic "invalid memory address or nil pointer dereference", s, k)
      | some declared =>
        (.err ⟨"invalid options for method, expected " ++ WebMethod ++ ", got " ++ declared⟩,
          s, k)
    else
      match sdk.IsValidStruct opts with
      | some err => (.err (errorsWrap err "processing options"), s, k)
      | none =>
        let didWeb : DIDWeb := opts.DIDWebID
        if !sdk.IsValid didWeb then
          (.err ⟨"could not resolve did:web DID: " ++ didWeb⟩, s, k)
        else
          match sdk.GenerateKeyByKeyType request.KeyType with
          | .error err => (.err (errorsWrap err "could not generate key for did:web"), s, k)
          | .ok (pubKey, privKey) =>
            match sdk.PubKeyToBytes pubKey with
            | .error err =>
              (.err (errorsWrap err "could not convert public key to byte"), s, k)
            | .ok pubKeyBytes =>
              match sdk.CreateDoc didWeb request.KeyType pubKeyBytes with
              | .error err => (.err (errorsWrap err "could not create did:web doc"), s, k)
              | .ok doc =>
                -- store metadata in DID storage
                let id : String := didWeb
                let storedDID : DefaultStoredDID := { ID := id, DID := doc, SoftDeleted := false }
                match storage.StoreDID s storedDID with
                | (s1, some err) =>
                  (.err (errorsWrap err "could not store did:web value"), s1, k)
                | (s1, none) =>
                  match sdk.PrivKeyToBytes privKey with
                  | .error err =>
                    (.err (errorsWrap err "could not encode private key as base58"), s1, k)
                  | .ok privKeyBytes =>
                    let privKeyBase58 := sdk.base58Encode privKeyBytes
                    -- store private key in key storage; `doc.VerificationMethod[0]`
                    match doc.VerificationMethod with
                    | [] => (.panic "index out of range [0] with length 0", s1, k)
                    | vm :: _ =>
                      let keyStoreRequest : StoreKeyRequest :=
                        { ID := vm.ID, Typ := request.KeyType, Controller := id,
                          PrivateKeyBase58 := privKeyBase58 }
                      match keyStore.StoreKey k keyStoreRequest with
                      | (k1, some err) =>
                        (.err (errorsWrap err "could not store did:web private key"), s1, k1)
                      | (k1, none) =>
                        (.ok { DID := storedDID.DID, PrivateKeyBase58 := privKeyBase58,
                               KeyType := request.KeyType }, s1, k1)

/-- Go `webHandler.GetDID`. -/
def GetDID (storage : Storage σ) (s : σ) (request : GetDIDRequest) : Except Error GetDIDResponse :=
  let id := request.ID
  match storage.GetDIDDefault s id with
  | .error err => .error (errorsWrap err ("error getting DID: " ++ id))
  | .ok none => .error ⟨"did with id<" ++ id ++ "> could not be found"⟩
  | .ok (some gotDID) => .ok { DID := gotDID.GetDocument }

/-- The loop of Go `webHandler.GetDIDs`: append the document of every record that is not
soft-deleted to `dids`, in the order of `gotDIDs`. -/
def appendLive (dids : List Document) : List DefaultStoredDID → List Document
  | [] => dids
  | gotDID :: rest =>
    if !gotDID.IsSoftDeleted then appendLive (dids ++ [gotDID.GetDocument]) rest
    else appendLive dids rest

/-- Go `webHandler.GetDIDs`. -/
def GetDIDs (storage : Storage σ) (s : σ) : Except Error GetDIDsResponse :=
  match storage.GetDIDsDefault s WebMethod with
  | .error err => .error (errorsWrap err "getting did:web DIDs")
  | .ok gotDIDs => .ok { DIDs := appendLive [] gotDIDs }

/-- Go `webHandler.SoftDeleteDID`: the storage it leaves and the returned error. -/
def SoftDeleteDID (storage : Storage σ) (s : σ) (request : DeleteDIDRequest) : σ × Option Error :=
  let id := request.ID
  match storage.GetDIDDefault s id with
  | .error err => (s, some (errorsWrap err ("getting DID: " ++ id)))
  | .ok none => (s, some ⟨"did with id<" ++ id ++ "> could not be found"⟩)
  | .ok (some gotStoredDID) =>
    storage.StoreDID s { gotStoredDID with SoftDeleted := true }

end handler

/-! ## The storage engine -/

/-- Whether `id` is an identifier of the DID method `method`, that is, starts with
`did:<method>:`. -/
def hasMethod (id : String) (method : Method) : Bool :=
  ("did:" ++ method ++ ":").toList.isPrefixOf id.toList

/-- Insert-or-replace of a record in a list of records keyed by `ID`: the record that has
the same `ID` is replaced in place, and a record with a new `ID` is added at the end. -/
def putRecord (r : DefaultStoredDID) : List DefaultStoredDID → List DefaultStoredDID
  | [] => [r]
  | x :: xs => if x.ID = r.ID then r :: xs else x :: putRecord r xs

/-- Modelled from the spec: the storage engine behind `*Storage`, whose code is not part of
the sources.  Section 6 gives its contract as `Put(collection, id, record)`,
`Get(collection, id) -> record|NotFound`, `List(collection, prefix?) -> sequence`: a
key-value store of DID records, one record per identifier. -/
structure KVStore where
  records : List DefaultStoredDID
  unique : (records.map (fun r => r.ID)).Nodup

/-- Modelled from the spec: `Put(collection, id, record)`, an insert-or-replace under the
record's identifier. -/
def KVStore.put (db : KVStore) (r : DefaultStoredDID) : KVStore where
  records := putRecord r db.records
  unique := by
    have hmem : ∀ (l : List DefaultStoredDID) (i : String),
        i ∈ (putRecord r l).map (fun r => r.ID) → i = r.ID ∨ i ∈ l.map (fun r => r.ID) := by
      intro l
      induction l with
      | nil => intro i hi; simpa [putRecord] using hi
      | cons x xs ih =>
        intro i hi
        simp only [putRecord] at hi
        split at hi
        · simp only [List.map_cons, List.mem_cons] at hi ⊢
          tauto
        · simp only [List.map_cons, List.mem_cons] at hi ⊢
          rcases hi with h | h
          · exact Or.inr (Or.inl h)
          · rcases ih i h with h1 | h1
            · exact Or.inl h1
            · exact Or.inr (Or.inr h1)
    have hnd : ∀ l : List DefaultStoredDID,
        (l.map (fun r => r.ID)).Nodup → ((putRecord r l).map (fun r => r.ID)).Nodup := by
      intro l
      induction l with
      | nil => intro _; simp [putRecord]
      | cons x xs ih =>
        intro h
        simp only [List.map_cons, List.nodup_cons] at h
        simp only [putRecord]
        split
        · rename_i hx
          simp only [List.map_cons, List.nodup_cons]
          exact ⟨hx ▸ h.1, h.2⟩
        · rename_i hx
          simp only [List.map_cons, List.nodup_cons]
          refine ⟨fun hin => ?_, ih h.2⟩
          rcases hmem xs x.ID hin with h1 | h1
          · exact hx h1
          · exact h.1 h1
    exact hnd _ db.unique

/-- Modelled from the spec: `Get(collection, id) -> record|NotFound`. -/
def KVStore.get (db : KVStore) (id : String) : Option DefaultStoredDID :=
  db.records.find? (fun r => r.ID == id)

/-- Modelled from the spec: `List(collection, prefix?) -> sequence`, the records of one DID
method, in the order in which the store holds them. -/
def KVStore.list (db : KVStore) (method : Method) : List DefaultStoredDID :=
  db.records.filter (fun r => hasMethod r.ID method)

/-- Modelled from the spec: the Conflict error of sections 5 and 7 that the storage layer
surfaces for a write under an identifier that is already stored (the storage code is not
part of the sources). -/
def conflictError (id : String) : Error := ⟨"conflict: did already stored: " ++ id⟩

/-- Modelled from the spec: the methods of `*Storage` over the key-value store of section 6
(the storage code is not part of the sources).  `StoreDID` is its `Put`: section 3 lets a
DID record be mutated only by an insert (`CreateDID`) and by a flag flip (`SoftDeleteDID`),
and section 5 has a second create of an identifier surface a Conflict at the storage layer
rather than overwrite.  So a record under a new identifier is inserted, a record that is
the stored document with the soft-delete flag set replaces the stored record, and any
other write under a stored identifier fails with the Conflict error and leaves the store
as it was.  `GetDIDDefault` is its `Get` (an absent record is the error `NotFound`),
`GetDIDsDefault` its `List` for one method. -/
def kvStorage : Storage KVStore where
  StoreDID := fun db did =>
    match db.get did.ID with
    | none => (db.put did, none)
    | some stored =>
      if did.SoftDeleted = true ∧ did.DID = stored.DID then (db.put did, none)
      else (db, some (conflictError did.ID))
  GetDIDDefault := fun db id =>
    match db.get id with
    | some r => .ok (some r)
    | none => .error ⟨"did not found: " ++ id⟩
  GetDIDsDefault := fun db method => .ok (db.list method)

/-! ## `panics.go` -/

namespace middleware

/-- Go `framework.RequestState`: the field read by `Panics`. -/
structure RequestState where
  TraceID : String
deriving DecidableEq, Repr

/-- The result of Go `ctx.Value(framework.KeyRequestState).(*framework.RequestState)`: the
type assertion reports `ok = false` (`absent`), or it succeeds with a nil pointer
(`nilPointer`), or it succeeds with a pointer to a request state (`present`). -/
inductive RequestStateValue where
  | absent
  | nilPointer
  | present (v : RequestState)
deriving DecidableEq, Repr

/-- Go `context.Context`, as far as `Panics` reads it. -/
structure Context where
  requestState : RequestStateValue
deriving DecidableEq, Repr

/-- How a call of a Go function of result type `error` ends: it returns its `error` (nil or
not), or it panics with a value, which is what `recover()` yields in a deferred function.
The value of `panic(nil)` is nil (`none`): with the Go releases before 1.21, which the
repository builds with, `recover()` then returns nil although a panic is being recovered. -/
inductive HandlerResult where
  | returned (err : Option Error)
  | panicked (r : Option String)
deriving DecidableEq, Repr

/-- Go `framework.Handler`, `func(ctx, w, r) error`, over a request type `Req`. -/
abbrev Handler (Req : Type) := Context → Req → HandlerResult

/-- Go `framework.NewShutdownError(message)`. -/
def NewShutdownError (message : String) : Error := ⟨message⟩

/-- Go `errors.Errorf("%s: \n%s", traceID, stack)`. -/
def errorfTrace (traceID stack : String) : Error := ⟨traceID ++ ": \n" ++ stack⟩

/-- Go `Panics()` applied to `handler`: the function `wrapped`.  `stack` is the value of
`debug.Stack()` in the deferred function. -/
def Panics {Req : Type} (stack : String) (handler : Handler Req) : Handler Req :=
  fun ctx r =>
    match ctx.requestState with
    | .absent => .returned (some (NewShutdownError "request state missing from context."))
    | v =>
      match handler ctx r with
      -- `return handler(ctx, w, r)`; in the deferred function `recover()` is nil
      | .returned err => .returned err
      -- the deferred function: `if r := recover(); r != nil { err = ... }`
      | .panicked none =>
        -- `recover()` is nil: the panic is stopped and `err` keeps its zero value
        .returned none
      | .panicked (some _) =>
        -- `err = errors.Errorf("%s: \n%s", v.TraceID, stack)` dereferences `v`
        match v with
        | .present state => .returned (some (errorfTrace state.TraceID stack))
        | _ => .panicked (some "invalid memory address or nil pointer dereference")

end middleware

/-! ## The application workflow and the operation tracker

The code of the workflow engine and of the operation tracker is not among the sources; only
the integration test that drives them over HTTP is.  The definitions of this section follow
sections 3, 4.2 and 4.3 of the specification. -/

namespace workflow

/-- Modelled from the spec: the error taxonomy of section 7 (the workflow engine's code is
not part of the sources). -/
inductive ErrorKind where
  | InvalidInput
  | NotFound
  | InvalidState
  | Conflict
  | Internal
deriving DecidableEq, Repr

/-- Modelled from the spec: a Credential Manifest of section 3 (its type is not part of the
sources): identifier, issuer and presentation-definition identifier. -/
structure Manifest where
  ID : String
  Issuer : String
  PresentationDefinitionID : String
deriving DecidableEq, Repr

/-- Modelled from the spec: an Issuance Template of section 3 (its type is not part of the
sources), bound to a manifest by `ManifestID`; it declares auto-fulfillment
(`AutoFulfill = true`) or review. -/
structure IssuanceTemplate where
  ManifestID : String
  AutoFulfill : Bool
deriving DecidableEq, Repr

/-- Modelled from the spec: a decoded Credential Application of section 3 (its type is not
part of the sources). -/
structure Application where
  ID : String
  ManifestID : String
  DefinitionID : String
  Applicant : String
deriving DecidableEq, Repr

/-- Modelled from the spec: an issued verifiable credential, an opaque payload (its type is
not part of the sources). -/
structure Credential where
  payload : String
deriving DecidableEq, Repr

/-- Modelled from the spec: the fulfillment of a Credential Response of section 3 (its type
is not part of the sources), either one or more issued credentials or a denial reason. -/
inductive Fulfillment where
  | issued (first : Credential) (more : List Credential)
  | denied (reason : String)
deriving DecidableEq, Repr

/-- Modelled from the spec: the credential list of a fulfillment (not part of the sources);
a denial carries no credentials. -/
def Fulfillment.credentials : Fulfillment → List Credential
  | .issued first more => first :: more
  | .denied _ => []

/-- Modelled from the spec: a Credential Response of section 3 (its type is not part of the
sources). -/
structure CredentialResponse where
  ID : String
  ManifestID : String
  ApplicationID : String
  Fulfillment : Fulfillment
deriving DecidableEq, Repr

/-- Modelled from the spec: the Result of an Operation (its type is not part of the
sources), a response payload or an error payload. -/
inductive OperationResult where
  | response (r : CredentialResponse)
  | error (payload : String)
deriving DecidableEq, Repr

/-- Modelled from the spec: an Operation of section 3 (its type is not part of the
sources); `Result` is set only when `Done`. -/
structure Operation where
  ID : String
  Done : Bool
  Result : Option OperationResult
deriving DecidableEq, Repr

/-- Modelled from the spec: an Operation as the tracker keeps it (not part of the sources),
bound to its parent application. -/
structure StoredOperation where
  op : Operation
  application : Application
deriving DecidableEq, Repr

/-- Modelled from the spec: the state behind the workflow engine (not part of the sources):
manifests, issuance templates, tracked operations, credential responses, and the source of
fresh discriminators.  The newest operation and response come first. -/
structure State where
  manifests : List Manifest
  templates : List IssuanceTemplate
  operations : List StoredOperation
  responses : List CredentialResponse
  next : Nat
deriving DecidableEq, Repr

/-- Modelled from the spec: the collaborators of the workflow engine (section 6; not part of
the sources): decoding of the application JWT, the check of the embedded presentation
against the manifest, construction and signing of the credentials (one or more; `none` when
construction fails), and the text of a fresh discriminator. -/
structure Collaborators where
  decode : String → Option Application
  satisfies : Application → Manifest → Bool
  issue : Manifest → Application → Option (Credential × List Credential)
  freshID : Nat → String

/-- Modelled from the spec: resolution of a manifest by its ID (not part of the sources). -/
def findManifest (st : State) (id : String) : Option Manifest :=
  st.manifests.find? (fun m => m.ID == id)

/-- Modelled from the spec: resolution of the issuance template bound to a manifest (not
part of the sources). -/
def findTemplate (st : State) (manifestID : String) : Option IssuanceTemplate :=
  st.templates.find? (fun t => t.ManifestID == manifestID)

/-- Modelled from the spec: the ID of an operation (section 4.2; not part of the sources),
derived from the parent reference and a fresh discriminator. -/
def operationID (app : Application) (discriminator : String) : String :=
  "applications/" ++ app.ID ++ "/" ++ discriminator

/-- Modelled from the spec: `GetOperation(id)` of section 4.2 (not part of the sources). -/
def GetOperation (st : State) (id : String) : Except ErrorKind Operation :=
  match st.operations.find? (fun o => o.op.ID == id) with
  | none => .error .NotFound
  | some o => .ok o.op

/-- Modelled from the spec: the write of `CompleteOperation` (not part of the sources): the
operation stored under `id` becomes done with the given result. -/
def completeIn (id : String) (result : OperationResult) :
    List StoredOperation → List StoredOperation
  | [] => []
  | o :: rest =>
    if o.op.ID == id then { o with op := { o.op with Done := true, Result := some result } } :: rest
    else o :: completeIn id result rest

/-- Modelled from the spec: `CompleteOperation(id, result)` of section 4.2 (not part of the
sources): fails with NotFound if unknown and with InvalidState if already done. -/
def CompleteOperation (st : State) (id : String) (result : OperationResult) :
    Except ErrorKind State :=
  match st.operations.find? (fun o => o.op.ID == id) with
  | none => .error .NotFound
  | some o =>
    if o.op.Done then .error .InvalidState
    else .ok { st with operations := completeIn id result st.operations }

/-- Modelled from the spec: `SubmitApplication(applicationJWT)` of section 4.3 (not part of
the sources): the returned operation or error, and the state left. -/
def SubmitApplication (c : Collaborators) (st : State) (applicationJWT : String) :
    Except ErrorKind Operation × State :=
  match c.decode applicationJWT with
  | none => (.error .InvalidInput, st)
  | some app =>
    match findManifest st app.ManifestID with
    | none => (.error .NotFound, st)
    | some manifest =>
      if !c.satisfies app manifest then (.error .InvalidInput, st)
      else
        let pending : Operation :=
          { ID := operationID app (c.freshID st.next), Done := false, Result := none }
        let opened : Except ErrorKind Operation × State :=
          (.ok pending,
            { st with operations := ⟨pending, app⟩ :: st.operations, next := st.next + 1 })
        match findTemplate st manifest.ID with
        | none => opened
        | some template =>
          if template.AutoFulfill then
            match c.issue manifest app with
            | none => (.error .Internal, st)
            | some creds =>
              let response : CredentialResponse :=
                { ID := c.freshID (st.next + 1), ManifestID := manifest.ID,
                  ApplicationID := app.ID, Fulfillment := .issued creds.1 creds.2 }
              let done : Operation :=
                { ID := operationID app (c.freshID st.next), Done := true,
                  Result := some (.response response) }
              (.ok done,
                { st with operations := ⟨done, app⟩ :: st.operations,
                          responses := response :: st.responses, next := st.next + 2 })
          else opened

/-- Modelled from the spec: `ReviewApplication(operationID, approved, reason)` of section
4.3 (not part of the sources): the returned Credential Response or error, and the state
left.  Completing the operation is the single commit point. -/
def ReviewApplication (c : Collaborators) (st : State) (id : String) (approved : Bool)
    (reason : String) : Except ErrorKind CredentialResponse × State :=
  match st.operations.find? (fun o => o.op.ID == id) with
  | none => (.error .NotFound, st)
  | some o =>
    if o.op.Done then (.error .InvalidState, st)
    else
      match findManifest st o.application.ManifestID with
      | none => (.error .NotFound, st)
      | some manifest =>
        let built : Option Fulfillment :=
          if approved then
            match c.issue manifest o.application with
            | none => none
            | some creds => some (.issued creds.1 creds.2)
          else some (.denied reason)
        match built with
        | none => (.error .Internal, st)
        | some fulfillment =>
          let response : CredentialResponse :=
            { ID := c.freshID st.next, ManifestID := manifest.ID,
              ApplicationID := o.application.ID, Fulfillment := fulfillment }
          match CompleteOperation st id (.response response) with
          | .error e => (.error e, st)
          | .ok st1 =>
            (.ok response, { st1 with responses := response :: st1.responses,
                                      next := st1.next + 1 })

/-- Modelled from the spec: `GetApplicationResponse(credentialResponseID)` of section 4.3
(not part of the sources). -/
def GetApplicationResponse (st : State) (id : String) : Except ErrorKind CredentialResponse :=
  match st.responses.find? (fun r => r.ID == id) with
  | none => .error .NotFound
  | some r => .ok r

end workflow

/-! ## Concrete states and collaborators -/

/-- The document of a did:web identifier with one verification method. -/
def sampleDoc (id keyMaterial : String) : Document :=
  { ID := id,
    VerificationMethod := [{ ID := id ++ "#owner", Controller := id,
                             PublicKeyBase58 := keyMaterial }] }

/-- A live record for `did:web:a`. -/
def recordA : DefaultStoredDID :=
  { ID := "did:web:a", DID := sampleDoc "did:web:a" "pubA", SoftDeleted := false }

/-- A live record for `did:web:b`. -/
def recordB : DefaultStoredDID :=
  { ID := "did:web:b", DID := sampleDoc "did:web:b" "pubB", SoftDeleted := false }

/-- The record that `CreateDID` writes for `did:web:a` with `sampleSdk`. -/
def recordA_created : DefaultStoredDID :=
  { ID := "did:web:a", DID := sampleDoc "did:web:a" "pubNew", SoftDeleted := false }

/-- A store holding live records for `did:web:a` and `did:web:b`. -/
def storeAB : KVStore where
  records := [recordA, recordB]
  unique := by decide

/-- The store `storeAB` with the record of `did:web:a` soft-deleted. -/
def storeAB_deletedA : KVStore where
  records := [{ recordA with SoftDeleted := true }, recordB]
  unique := by decide

/-- A store holding only the live record for `did:web:b`. -/
def storeB : KVStore where
  records := [recordB]
  unique := by decide

/-- The store `storeB` after `did:web:a` has been created. -/
def storeB_createdA : KVStore where
  records := [recordB, recordA_created]
  unique := by decide

/-- A live record for `did:web:a` whose document is the document of `recordB`. -/
def recordA_sharing : DefaultStoredDID :=
  { ID := "did:web:a", DID := recordB.DID, SoftDeleted := false }

/-- A store in which the live records of `did:web:a` and `did:web:b` carry equal
documents. -/
def storeShared : KVStore where
  records := [recordA_sharing, recordB]
  unique := by decide

/-- An SDK whose calls all succeed: identifiers resolve when they are did:web identifiers,
and the generated document has one verification method. -/
def sampleSdk : Sdk where
  PublicKey := Nat
  PrivateKey := Nat
  IsValidStruct := fun opts =>
    if opts.DIDWebID = "" then some ⟨"DIDWebID is a required field"⟩ else none
  IsValid := fun didWeb => hasMethod didWeb WebMethod
  GenerateKeyByKeyType := fun _ => .ok (7, 11)
  PubKeyToBytes := fun pubKey => .ok [pubKey]
  CreateDoc := fun didWeb _ _ => .ok (sampleDoc didWeb "pubNew")
  PrivKeyToBytes := fun privKey => .ok [privKey]
  base58Encode := fun _ => "privNew"

/-- A key store that appends every key it is given. -/
def memoryKeyStore : KeyStoreService (List StoreKeyRequest) where
  StoreKey := fun keys request => (keys ++ [request], none)

/-- A key store whose write fails. -/
def failingKeyStore : KeyStoreService (List StoreKeyRequest) where
  StoreKey := fun keys _ => (keys, some ⟨"key store unavailable"⟩)

/-- A request to create `did:web:a` with an Ed25519 key. -/
def createA : CreateDIDRequest :=
  { Method := "web", KeyType := "Ed25519", Options := some (.web { DIDWebID := "did:web:a" }) }

/-- A request for the method `key` whose options are the did:web options of `did:web:a`. -/
def createA_asKey : CreateDIDRequest :=
  { Method := "key", KeyType := "Ed25519", Options := some (.web { DIDWebID := "did:web:a" }) }

/-- A request for the method `web` whose options are a typed nil pointer. -/
def createNilPointer : CreateDIDRequest :=
  { Method := "web", KeyType := "Ed25519", Options := some .nilPointer }

/-- The response to `createA` with `sampleSdk`. -/
def responseA : CreateDIDResponse :=
  { DID := sampleDoc "did:web:a" "pubNew", PrivateKeyBase58 := "privNew",
    KeyType := "Ed25519" }

/-- The key stored for `createA`. -/
def keyOfA : StoreKeyRequest :=
  { ID := "did:web:a#owner", Typ := "Ed25519", Controller := "did:web:a",
    PrivateKeyBase58 := "privNew" }

/-- A manifest. -/
def workflow.sampleManifest : workflow.Manifest :=
  { ID := "manifest-1", Issuer := "did:key:issuer", PresentationDefinitionID := "pd-1" }

/-- An application against `sampleManifest`. -/
def workflow.sampleApplication : workflow.Application :=
  { ID := "application-1", ManifestID := "manifest-1", DefinitionID := "pd-1",
    Applicant := "did:key:alice" }

/-- Collaborators that decode one JWT, accept an application that targets the manifest's
presentation definition, and issue one credential. -/
def workflow.sampleCollaborators : workflow.Collaborators where
  decode := fun jwt => if jwt = "jwt-1" then some workflow.sampleApplication else none
  satisfies := fun app manifest => app.DefinitionID == manifest.PresentationDefinitionID
  issue := fun manifest app => some (⟨"vc:" ++ manifest.ID ++ ":" ++ app.Applicant⟩, [])
  freshID := fun n => "id-" ++ toString n

/-- A state holding `sampleManifest` without an issuance template. -/
def workflow.reviewState : workflow.State :=
  { manifests := [workflow.sampleManifest], templates := [], operations := [],
    responses := [], next := 0 }

/-- A state holding `sampleManifest` with a template that declares auto-fulfillment. -/
def workflow.autoState : workflow.State :=
  { manifests := [workflow.sampleManifest],
    templates := [{ ManifestID := "manifest-1", AutoFulfill := true }], operations := [],
    responses := [], next := 0 }

/-! ## The handler over arbitrary collaborators -/

section handler_theorems

variable {σ κ : Type}

theorem appendLive_eq (dids : List Document) (gotDIDs : List DefaultStoredDID) :
    appendLive dids gotDIDs
      = dids ++ (gotDIDs.filter (fun r => !r.SoftDeleted)).map (fun r => r.DID) := by
  induction gotDIDs generalizing dids with
  | nil => simp [appendLive]
  | cons x xs ih =>
    cases hx : x.SoftDeleted <;>
      simp [appendLive, DefaultStoredDID.IsSoftDeleted, DefaultStoredDID.GetDocument, hx, ih]

/-- C5: `GetDIDs` fails exactly when the storage listing for `did.WebMethod` fails, and
otherwise returns the documents of the listed records whose soft-delete flag is false, each
once and in the order of the listing (the result is the listing filtered and mapped, a
sublist of the listed documents), so that no soft-deleted record contributes and the length
is at most the number of listed records. -/
theorem GetDIDs_lists_live_documents (storage : Storage σ) (s : σ) :
    match storage.GetDIDsDefault s WebMethod with
    | .error err => GetDIDs storage s = .error (errorsWrap err "getting did:web DIDs")
    | .ok gotDIDs =>
      GetDIDs storage s
          = .ok { DIDs := (gotDIDs.filter (fun r => !r.SoftDeleted)).map (fun r => r.DID) }
        ∧ List.Sublist ((gotDIDs.filter (fun r => !r.SoftDeleted)).map (fun r => r.DID))
            (gotDIDs.map (fun r => r.DID))
        ∧ ((gotDIDs.filter (fun r => !r.SoftDeleted)).map (fun r => r.DID)).length
            ≤ gotDIDs.length := by
  cases h : storage.GetDIDsDefault s WebMethod with
  | error err => simp [GetDIDs, h]
  | ok gotDIDs =>
    refine ⟨?_, ?_, ?_⟩
    · simp [GetDIDs, h, appendLive_eq]
    · exact List.Sublist.map _ (List.filter_sublist _)
    · rw [List.length_map]
      exact List.length_filter_le _ _

/-- C2 (amended): the handler compares the options' declared method with its own method,
`did.WebMethod`, and does not read the request's `Method`.  When the options are absent,
or are a value of a type other than `CreateWebDIDOptions` whose `Method()` returns, or
declare a method other than `did.WebMethod`, `CreateDID` returns an error (one of the two
errors of the options check, not a panic and not a response) and hands back the DID storage
and the key store it was given: no collaborator is called. -/
theorem CreateDID_rejects_mismatched_options (storage : Storage σ)
    (keyStore : KeyStoreService κ) (sdk : Sdk) (s : σ) (k : κ) (request : CreateDIDRequest)
    (hmismatch : request.Options = none ∨
      ∃ options declared, request.Options = some options ∧
        options.Method = some declared ∧
        ((∀ opts, options ≠ .web opts) ∨ declared ≠ WebMethod)) :
    ∃ e : Error,
      CreateDID storage keyStore sdk s k request = (.err e, s, k) ∧
      (e = errorsNew "options cannot be empty" ∨
        ∃ options declared, request.Options = some options ∧
          options.Method = some declared ∧
          e = ⟨"invalid options for method, expected web, got " ++ declared⟩) := by
  rcases hmismatch with hnone | ⟨options, declared, hsome, hdeclared, hbad⟩
  · exact ⟨_, by simp [CreateDID, hnone], Or.inl rfl⟩
  · cases options with
    | web opts =>
      rcases hbad with h | h
      · exact absurd rfl (h opts)
      · simp only [CreateDIDOptions.Method, Option.some.injEq] at hdeclared
        exact absurd hdeclared.symm h
    | other declared0 =>
      simp only [CreateDIDOptions.Method, Option.some.injEq] at hdeclared
      subst hdeclared
      refine ⟨⟨"invalid options for method, expected web, got " ++ declared0⟩, ?_,
        Or.inr ⟨_, _, hsome, rfl, rfl⟩⟩
      simp [CreateDID, hsome, CreateDIDOptions.assertWeb, CreateDIDOptions.Method, WebMethod]
    | nilPointer => simp [CreateDIDOptions.Method] at hdeclared

/-- C6: when `CreateDID` returns a response, the options are a `CreateWebDIDOptions` value,
the DID storage it leaves is the result of one successful `StoreDID` on the given storage,
of the record with the options' identifier, the returned document and soft-delete flag
false, and the key store it leaves is the result of one successful `StoreKey` on the given
key store, of the key whose id is the id of the document's first verification method, whose
controller is the DID identifier, whose type is the requested key type and whose private
key is the base58 key of the response. -/
theorem CreateDID_success_writes (storage : Storage σ) (keyStore : KeyStoreService κ)
    (sdk : Sdk) (s s1 : σ) (k k1 : κ) (request : CreateDIDRequest)
    (resp : CreateDIDResponse)
    (hok : CreateDID storage keyStore sdk s k request = (.ok resp, s1, k1)) :
    ∃ (opts : CreateWebDIDOptions) (vm : VerificationMethod) (rest : List VerificationMethod),
      request.Options = some (.web opts) ∧
      storage.StoreDID s { ID := opts.DIDWebID, DID := resp.DID, SoftDeleted := false }
        = (s1, none) ∧
      resp.DID.VerificationMethod = vm :: rest ∧
      keyStore.StoreKey k
          { ID := vm.ID, Typ := request.KeyType, Controller := opts.DIDWebID,
            PrivateKeyBase58 := resp.PrivateKeyBase58 }
        = (k1, none) ∧
      resp.KeyType = request.KeyType := by
  unfold CreateDID at hok
  split at hok
  · simp at hok
  · rename_i options hoptions
    cases options with
    | other declared => simp [CreateDIDOptions.assertWeb, CreateDIDOptions.Method] at hok
    | nilPointer => simp [CreateDIDOptions.assertWeb, CreateDIDOptions.Method] at hok
    | web opts =>
      simp only [CreateDIDOptions.assertWeb, CreateDIDOptions.Method] at hok
      split at hok
      · simp at hok
      · split at hok
        · simp at hok
        · split at hok
          · simp at hok
          · split at hok
            · simp at hok
            · split at hok
              · simp at hok
              · split at hok
                · simp at hok
                · rename_i doc hdoc
                  split at hok
                  · simp at hok
                  · rename_i s1h hstore
                    split at hok
                    · simp at hok
                    · split at hok
                      · simp at hok
                      · rename_i vm rest hvm
                        split at hok
                        · simp at hok
                        · rename_i k1h hkey
                          simp only [Prod.mk.injEq, Outcome.ok.injEq] at hok
                          obtain ⟨hresp, hs, hk⟩ := hok
                          subst hresp hs hk
                          exact ⟨opts, vm, rest, hoptions, hstore, hvm, hkey, rfl⟩

end handler_theorems

/-! ## The key-value store -/

theorem KVStore.eq_of_records {a b : KVStore} (h : a.records = b.records) : a = b := by
  cases a
  cases b
  simp only at h
  subst h
  rfl

theorem find_putRecord_same (r : DefaultStoredDID) (l : List DefaultStoredDID) :
    (putRecord r l).find? (fun x => x.ID == r.ID) = some r := by
  induction l with
  | nil => simp [putRecord]
  | cons x xs ih =>
    by_cases hx : x.ID = r.ID
    · simp [putRecord, hx]
    · simp [putRecord, hx, ih]

theorem find_putRecord_other (r : DefaultStoredDID) (l : List DefaultStoredDID) (j : String)
    (hj : j ≠ r.ID) :
    (putRecord r l).find? (fun x => x.ID == j) = l.find? (fun x => x.ID == j) := by
  induction l with
  | nil => simp [putRecord, Ne.symm hj]
  | cons x xs ih =>
    by_cases hx : x.ID = r.ID
    · have hxj : ¬ x.ID = j := fun h => hj (h ▸ hx)
      simp [putRecord, hx, hxj, Ne.symm hj]
    · by_cases hxj : x.ID = j
      · subst hxj
        simp [putRecord, hx]
      · simp [putRecord, hx, hxj, ih]

theorem find_ID_eq {l : List DefaultStoredDID} {id : String} {r : DefaultStoredDID}
    (h : l.find? (fun x => x.ID == id) = some r) : r.ID = id := by
  have := List.find?_some h
  simpa using this

theorem putRecord_idem (r : DefaultStoredDID) (l : List DefaultStoredDID) :
    putRecord r (putRecord r l) = putRecord r l := by
  induction l with
  | nil => simp [putRecord]
  | cons x xs ih =>
    by_cases hx : x.ID = r.ID
    · simp [putRecord, hx]
    · simp [putRecord, hx, ih]

theorem mem_putRecord (r : DefaultStoredDID) (l : List DefaultStoredDID) :
    r ∈ putRecord r l := by
  induction l with
  | nil => simp [putRecord]
  | cons x xs ih =>
    by_cases hx : x.ID = r.ID
    · simp [putRecord, hx]
    · simp [putRecord, hx, ih]

theorem filter_putRecord_of_rejected (f : DefaultStoredDID → Bool) (r : DefaultStoredDID)
    (hf : f r = false) (l : List DefaultStoredDID)
    (hnd : (l.map (fun x => x.ID)).Nodup) :
    (putRecord r l).filter f = l.filter (fun x => f x && x.ID != r.ID) := by
  induction l with
  | nil => simp [putRecord, hf]
  | cons x xs ih =>
    simp only [List.map_cons, List.nodup_cons] at hnd
    by_cases hx : x.ID = r.ID
    · have hrest : ∀ y ∈ xs, (f y && y.ID != r.ID) = f y := by
        intro y hy
        have hne : y.ID ≠ r.ID := by
          intro h
          apply hnd.1
          rw [hx, ← h]
          exact List.mem_map_of_mem _ hy
        simp [hne]
      simp only [putRecord, hx, if_true]
      rw [List.filter_cons, List.filter_cons]
      simp only [hf, hx, bne_self_eq_false, Bool.and_false]
      simp only [Bool.false_eq_true, if_false]
      exact (List.filter_congr hrest).symm
    · simp only [putRecord, hx, if_false]
      rw [List.filter_cons, List.filter_cons, ih hnd.2]
      simp [hx]

theorem kv_get_put_same (db : KVStore) (r : DefaultStoredDID) :
    (db.put r).get r.ID = some r :=
  find_putRecord_same r db.records

theorem kv_get_put_other (db : KVStore) (r : DefaultStoredDID) (j : String) (hj : j ≠ r.ID) :
    (db.put r).get j = db.get j :=
  find_putRecord_other r db.records j hj

theorem kv_get_ID {db : KVStore} {id : String} {r : DefaultStoredDID}
    (h : db.get id = some r) : r.ID = id :=
  find_ID_eq h

theorem kv_GetDIDDefault_some {db : KVStore} {id : String} {r : DefaultStoredDID}
    (h : kvStorage.GetDIDDefault db id = .ok (some r)) : db.get id = some r := by
  simp only [kvStorage] at h
  cases hg : db.get id with
  | none => simp [hg] at h
  | some x =>
    simp [hg] at h
    rw [h]

theorem kv_StoreDID_no_error (db : KVStore) (did : DefaultStoredDID)
    (h : (kvStorage.StoreDID db did).2 = none) :
    kvStorage.StoreDID db did = (db.put did, none) := by
  simp only [kvStorage] at h ⊢
  split
  · rfl
  · rename_i stored hstored
    simp only [hstored] at h
    split
    · rfl
    · rename_i hno
      simp [hno] at h

theorem kv_StoreDID_conflict (db : KVStore) (did stored : DefaultStoredDID)
    (h : db.get did.ID = some stored) (hlive : did.SoftDeleted = false) :
    kvStorage.StoreDID db did = (db, some (conflictError did.ID)) := by
  simp [kvStorage, h, hlive]

theorem kv_SoftDeleteDID_stored (db : KVStore) (id : String) (r : DefaultStoredDID)
    (h : db.get id = some r) :
    SoftDeleteDID kvStorage db ⟨id⟩ = (db.put { r with SoftDeleted := true }, none) := by
  have hid : r.ID = id := kv_get_ID h
  subst hid
  simp [SoftDeleteDID, kvStorage, h]

theorem kv_SoftDeleteDID_absent (db : KVStore) (id : String) (h : db.get id = none) :
    SoftDeleteDID kvStorage db ⟨id⟩
      = (db, some (errorsWrap ⟨"did not found: " ++ id⟩ ("getting DID: " ++ id))) := by
  simp [SoftDeleteDID, kvStorage, h]

theorem kv_GetDID_stored (db : KVStore) (id : String) (r : DefaultStoredDID)
    (h : db.get id = some r) : GetDID kvStorage db ⟨id⟩ = .ok ⟨r.DID⟩ := by
  simp [GetDID, kvStorage, h, DefaultStoredDID.GetDocument]

theorem kv_GetDIDs (db : KVStore) :
    GetDIDs kvStorage db
      = .ok ⟨((db.list WebMethod).filter (fun r => !r.SoftDeleted)).map (fun r => r.DID)⟩ := by
  simp [GetDIDs, kvStorage, appendLive_eq]

/-! ## Soft delete on the key-value store -/

/-- C1 (amended): on the key-value store, for an id with a stored record `r`,
`SoftDeleteDID` returns success; after it `GetDID` still succeeds with the document it
returned before, and `GetDIDs` no longer lists the record: its result is exactly the
documents of the listed did:web records other than `id` that are not soft-deleted.  The
document of `r` is in that result exactly when another listed record that is not
soft-deleted carries an equal document. -/
theorem SoftDeleteDID_hides_record_keeps_lookup (db : KVStore) (id : String)
    (r : DefaultStoredDID)
    (hstored : kvStorage.GetDIDDefault db id = .ok (some r)) :
    (SoftDeleteDID kvStorage db ⟨id⟩).2 = none ∧
    GetDID kvStorage db ⟨id⟩ = .ok ⟨r.DID⟩ ∧
    GetDID kvStorage (SoftDeleteDID kvStorage db ⟨id⟩).1 ⟨id⟩ = .ok ⟨r.DID⟩ ∧
    GetDIDs kvStorage (SoftDeleteDID kvStorage db ⟨id⟩).1
      = .ok ⟨((db.list WebMethod).filter (fun x => !x.SoftDeleted && x.ID != id)).map
          (fun x => x.DID)⟩ ∧
    (r.DID ∈ ((db.list WebMethod).filter (fun x => !x.SoftDeleted && x.ID != id)).map
          (fun x => x.DID)
      ↔ ∃ x ∈ db.list WebMethod, x.ID ≠ id ∧ x.SoftDeleted = false ∧ x.DID = r.DID) := by
  have hget := kv_GetDIDDefault_some hstored
  have hid : r.ID = id := kv_get_ID hget
  rw [kv_SoftDeleteDID_stored db id r hget]
  have hget1 : (db.put { r with SoftDeleted := true }).get id
      = some { r with SoftDeleted := true } := by
    have := kv_get_put_same db { r with SoftDeleted := true }
    simpa [hid] using this
  have hlist : GetDIDs kvStorage (db.put { r with SoftDeleted := true })
      = .ok ⟨((db.list WebMethod).filter (fun x => !x.SoftDeleted && x.ID != id)).map
          (fun x => x.DID)⟩ := by
    rw [kv_GetDIDs]
    simp only [KVStore.list, KVStore.put, List.filter_filter]
    rw [filter_putRecord_of_rejected _ { r with SoftDeleted := true } (by simp) db.records
      db.unique]
    simp only [hid]
    congr 2
    apply congrArg
    apply List.filter_congr
    intro x _
    cases x.SoftDeleted <;> cases hasMethod x.ID WebMethod <;> cases (x.ID != id) <;> rfl
  refine ⟨rfl, kv_GetDID_stored db id r hget, ?_, hlist, ?_⟩
  · simpa using kv_GetDID_stored _ id _ hget1
  · simp only [List.mem_map, List.mem_filter, Bool.and_eq_true, Bool.not_eq_true',
      bne_iff_ne, ne_eq]
    constructor
    · rintro ⟨x, ⟨hx, hlive, hne⟩, hdoc⟩
      exact ⟨x, hx, hne, hlive, hdoc⟩
    · rintro ⟨x, hx, hne, hlive, hdoc⟩
      exact ⟨x, ⟨hx, hlive, hne⟩, hdoc⟩

/-- C4: on the key-value store, calling `SoftDeleteDID` a second time returns the same
error value and leaves the same storage as the first call.  For an id without a record the
call fails with the not-found error and leaves the storage as it was; for an id with a
record (soft-deleted or not) it succeeds, the record under the id becomes the same record
with the soft-delete flag set, and the record under every other id is unchanged. -/
theorem SoftDeleteDID_idempotent (db : KVStore) (id : String) :
    SoftDeleteDID kvStorage (SoftDeleteDID kvStorage db ⟨id⟩).1 ⟨id⟩
        = SoftDeleteDID kvStorage db ⟨id⟩ ∧
    (db.get id = none →
      SoftDeleteDID kvStorage db ⟨id⟩
        = (db, some (errorsWrap ⟨"did not found: " ++ id⟩ ("getting DID: " ++ id)))) ∧
    (∀ r, db.get id = some r →
      (SoftDeleteDID kvStorage db ⟨id⟩).2 = none ∧
      (SoftDeleteDID kvStorage db ⟨id⟩).1.get id = some { r with SoftDeleted := true } ∧
      ∀ j, j ≠ id → (SoftDeleteDID kvStorage db ⟨id⟩).1.get j = db.get j) := by
  refine ⟨?_, kv_SoftDeleteDID_absent db id, ?_⟩
  · cases hget : db.get id with
    | none =>
      rw [kv_SoftDeleteDID_absent db id hget]
      exact kv_SoftDeleteDID_absent db id hget
    | some r =>
      have hid : r.ID = id := kv_get_ID hget
      have hget1 : (db.put { r with SoftDeleted := true }).get id
          = some { r with SoftDeleted := true } := by
        have := kv_get_put_same db { r with SoftDeleted := true }
        simpa [hid] using this
      rw [kv_SoftDeleteDID_stored db id r hget]
      rw [kv_SoftDeleteDID_stored _ id _ hget1]
      simp only [Prod.mk.injEq, and_true]
      apply KVStore.eq_of_records
      exact putRecord_idem _ _
  · intro r hget
    have hid : r.ID = id := kv_get_ID hget
    rw [kv_SoftDeleteDID_stored db id r hget]
    refine ⟨rfl, ?_, ?_⟩
    · have := kv_get_put_same db { r with SoftDeleted := true }
      simpa [hid] using this
    · intro j hj
      exact kv_get_put_other db _ j (by simpa [hid] using hj)

/-! ## `CreateDID` up to the key store -/

section create

variable {σ κ : Type}

theorem CreateDID_at_key_store (storage : Storage σ) (keyStore : KeyStoreService κ)
    (sdk : Sdk) (s s1 : σ) (k : κ) (request : CreateDIDRequest) (opts : CreateWebDIDOptions)
    (pubKey : sdk.PublicKey) (privKey : sdk.PrivateKey) (pubKeyBytes privKeyBytes : List Nat)
    (doc : Document) (vm : VerificationMethod) (rest : List VerificationMethod)
    (hopts : request.Options = some (.web opts))
    (hstruct : sdk.IsValidStruct opts = none)
    (hvalid : sdk.IsValid opts.DIDWebID = true)
    (hgen : sdk.GenerateKeyByKeyType request.KeyType = .ok (pubKey, privKey))
    (hpub : sdk.PubKeyToBytes pubKey = .ok pubKeyBytes)
    (hdoc : sdk.CreateDoc opts.DIDWebID request.KeyType pubKeyBytes = .ok doc)
    (hstore : storage.StoreDID s { ID := opts.DIDWebID, DID := doc, SoftDeleted := false }
      = (s1, none))
    (hpriv : sdk.PrivKeyToBytes privKey = .ok privKeyBytes)
    (hvm : doc.VerificationMethod = vm :: rest) :
    CreateDID storage keyStore sdk s k request
      = match keyStore.StoreKey k
            { ID := vm.ID, Typ := request.KeyType, Controller := opts.DIDWebID,
              PrivateKeyBase58 := sdk.base58Encode privKeyBytes } with
        | (k1, some err) =>
          (.err (errorsWrap err "could not store did:web private key"), s1, k1)
        | (k1, none) =>
          (.ok { DID := doc, PrivateKeyBase58 := sdk.base58Encode privKeyBytes,
                 KeyType := request.KeyType }, s1, k1) := by
  unfold CreateDID
  simp only [hopts, CreateDIDOptions.assertWeb, CreateDIDOptions.Method, hstruct, hvalid, hgen,
    hpub, hdoc, hstore, hpriv, hvm]
  simp

end create

/-! ## `CreateDID` on the key-value store -/

section create_kv

variable {κ : Type}

/-- C3: on the key-value store, whose write surfaces the Conflict of section 5, for a
storage that already holds a record under the options' id (soft-deleted or not) `CreateDID`
always returns an error, never a response or a panic, and hands back the DID storage and
the key store it was given, so that the stored record, its document and its soft-delete
flag are unchanged; when validation, key generation and document construction succeed the
error is the Conflict of the storage write. -/
theorem CreateDID_existing_id_conflicts (keyStore : KeyStoreService κ) (sdk : Sdk)
    (db : KVStore) (k : κ) (request : CreateDIDRequest) (opts : CreateWebDIDOptions)
    (old : DefaultStoredDID)
    (hopts : request.Options = some (.web opts))
    (hold : db.get opts.DIDWebID = some old) :
    (∃ e : Error, CreateDID kvStorage keyStore sdk db k request = (.err e, db, k)) ∧
    (CreateDID kvStorage keyStore sdk db k request).2.1.get opts.DIDWebID = some old ∧
    (∀ (pubKey : sdk.PublicKey) (privKey : sdk.PrivateKey) (pubKeyBytes : List Nat)
        (doc : Document),
      sdk.IsValidStruct opts = none →
      sdk.IsValid opts.DIDWebID = true →
      sdk.GenerateKeyByKeyType request.KeyType = .ok (pubKey, privKey) →
      sdk.PubKeyToBytes pubKey = .ok pubKeyBytes →
      sdk.CreateDoc opts.DIDWebID request.KeyType pubKeyBytes = .ok doc →
      CreateDID kvStorage keyStore sdk db k request
        = (.err (errorsWrap (conflictError opts.DIDWebID) "could not store did:web value"),
            db, k)) := by
  have hconflict : ∀ doc : Document,
      kvStorage.StoreDID db { ID := opts.DIDWebID, DID := doc, SoftDeleted := false }
        = (db, some (conflictError opts.DIDWebID)) :=
    fun doc => kv_StoreDID_conflict db { ID := opts.DIDWebID, DID := doc, SoftDeleted := false }
      old hold rfl
  have hreach : ∀ (pubKey : sdk.PublicKey) (privKey : sdk.PrivateKey)
      (pubKeyBytes : List Nat) (doc : Document),
      sdk.IsValidStruct opts = none →
      sdk.IsValid opts.DIDWebID = true →
      sdk.GenerateKeyByKeyType request.KeyType = .ok (pubKey, privKey) →
      sdk.PubKeyToBytes pubKey = .ok pubKeyBytes →
      sdk.CreateDoc opts.DIDWebID request.KeyType pubKeyBytes = .ok doc →
      CreateDID kvStorage keyStore sdk db k request
        = (.err (errorsWrap (conflictError opts.DIDWebID) "could not store did:web value"),
            db, k) := by
    intro pubKey privKey pubKeyBytes doc hstruct hvalid hgen hpub hdoc
    unfold CreateDID
    simp only [hopts, CreateDIDOptions.assertWeb, CreateDIDOptions.Method, hstruct, hvalid,
      hgen, hpub, hdoc, hconflict doc]
    simp
  have herr : ∃ e : Error, CreateDID kvStorage keyStore sdk db k request = (.err e, db, k) := by
    cases hstruct : sdk.IsValidStruct opts with
    | some e =>
      refine ⟨errorsWrap e "processing options", ?_⟩
      unfold CreateDID
      simp only [hopts, CreateDIDOptions.assertWeb, CreateDIDOptions.Method, hstruct]
      simp
    | none =>
      cases hvalid : sdk.IsValid opts.DIDWebID with
      | false =>
        refine ⟨⟨"could not resolve did:web DID: " ++ opts.DIDWebID⟩, ?_⟩
        unfold CreateDID
        simp only [hopts, CreateDIDOptions.assertWeb, CreateDIDOptions.Method, hstruct, hvalid]
        simp
      | true =>
        cases hgen : sdk.GenerateKeyByKeyType request.KeyType with
        | error e =>
          refine ⟨errorsWrap e "could not generate key for did:web", ?_⟩
          unfold CreateDID
          simp only [hopts, CreateDIDOptions.assertWeb, CreateDIDOptions.Method, hstruct,
            hvalid, hgen]
          simp
        | ok keys =>
          obtain ⟨pubKey, privKey⟩ := keys
          cases hpub : sdk.PubKeyToBytes pubKey with
          | error e =>
            refine ⟨errorsWrap e "could not convert public key to byte", ?_⟩
            unfold CreateDID
            simp only [hopts, CreateDIDOptions.assertWeb, CreateDIDOptions.Method, hstruct,
              hvalid, hgen, hpub]
            simp
          | ok pubKeyBytes =>
            cases hdoc : sdk.CreateDoc opts.DIDWebID request.KeyType pubKeyBytes with
            | error e =>
              refine ⟨errorsWrap e "could not create did:web doc", ?_⟩
              unfold CreateDID
              simp only [hopts, CreateDIDOptions.assertWeb, CreateDIDOptions.Method, hstruct,
                hvalid, hgen, hpub, hdoc]
              simp
            | ok doc =>
              exact ⟨_, hreach pubKey privKey pubKeyBytes doc hstruct hvalid hgen hpub hdoc⟩
  refine ⟨herr, ?_, hreach⟩
  obtain ⟨e, he⟩ := herr
  rw [he]
  exact hold

/-- C10: `CreateDID` is not atomic across its two writes.  On the key-value store, for a
request that passes validation (its id being a did:web identifier) and for which key
generation, document construction and the DID storage write succeed but `StoreKey` fails,
`CreateDID` returns the wrapped key-store error and no response, while the record written
before, with soft-delete flag false, is in the DID storage it leaves: `GetDID` of the id
returns its document and `GetDIDs` lists it. -/
theorem CreateDID_keeps_record_when_StoreKey_fails (keyStore : KeyStoreService κ)
    (sdk : Sdk) (db : KVStore) (k k1 : κ) (request : CreateDIDRequest)
    (opts : CreateWebDIDOptions)
    (pubKey : sdk.PublicKey) (privKey : sdk.PrivateKey) (pubKeyBytes privKeyBytes : List Nat)
    (doc : Document) (vm : VerificationMethod) (rest : List VerificationMethod) (err : Error)
    (hopts : request.Options = some (.web opts))
    (hstruct : sdk.IsValidStruct opts = none)
    (hvalid : sdk.IsValid opts.DIDWebID = true)
    (hweb : hasMethod opts.DIDWebID WebMethod = true)
    (hgen : sdk.GenerateKeyByKeyType request.KeyType = .ok (pubKey, privKey))
    (hpub : sdk.PubKeyToBytes pubKey = .ok pubKeyBytes)
    (hdoc : sdk.CreateDoc opts.DIDWebID request.KeyType pubKeyBytes = .ok doc)
    (hstore : (kvStorage.StoreDID db
        { ID := opts.DIDWebID, DID := doc, SoftDeleted := false }).2 = none)
    (hpriv : sdk.PrivKeyToBytes privKey = .ok privKeyBytes)
    (hvm : doc.VerificationMethod = vm :: rest)
    (hkey : keyStore.StoreKey k
        { ID := vm.ID, Typ := request.KeyType, Controller := opts.DIDWebID,
          PrivateKeyBase58 := sdk.base58Encode privKeyBytes } = (k1, some err)) :
    ∃ db1 : KVStore,
      CreateDID kvStorage keyStore sdk db k request
        = (.err (errorsWrap err "could not store did:web private key"), db1, k1) ∧
      db1.get opts.DIDWebID
        = some { ID := opts.DIDWebID, DID := doc, SoftDeleted := false } ∧
      GetDID kvStorage db1 ⟨opts.DIDWebID⟩ = .ok ⟨doc⟩ ∧
      ∃ resp, GetDIDs kvStorage db1 = .ok resp ∧ doc ∈ resp.DIDs := by
  have hget := kv_get_put_same db { ID := opts.DIDWebID, DID := doc, SoftDeleted := false }
  refine ⟨db.put { ID := opts.DIDWebID, DID := doc, SoftDeleted := false }, ?_, hget, ?_, ?_⟩
  · rw [CreateDID_at_key_store kvStorage keyStore sdk db _ k request opts pubKey privKey
      pubKeyBytes privKeyBytes doc vm rest hopts hstruct hvalid hgen hpub hdoc
      (kv_StoreDID_no_error db _ hstore) hpriv hvm]
    rw [hkey]
  · exact kv_GetDID_stored _ _ _ hget
  · refine ⟨_, kv_GetDIDs _, ?_⟩
    simp only [List.mem_map, List.mem_filter, KVStore.list, KVStore.put]
    exact ⟨{ ID := opts.DIDWebID, DID := doc, SoftDeleted := false },
      ⟨⟨mem_putRecord _ _, hweb⟩, rfl⟩, rfl⟩

end create_kv

/-! ## The panic-recovery middleware -/

theorem Panics_passes_result_through {Req : Type} (stack : String)
    (handler : middleware.Handler Req) (ctx : middleware.Context) (r : Req)
    (v : middleware.RequestState) (hstate : ctx.requestState = .present v) :
    (∀ p, handler ctx r = .panicked (some p) →
      middleware.Panics stack handler ctx r
        = .returned (some (middleware.errorfTrace v.TraceID stack))) ∧
    (∀ err, handler ctx r = .returned err →
      middleware.Panics stack handler ctx r = .returned err) := by
  cases ctx with
  | mk value =>
    simp only at hstate
    subst hstate
    refine ⟨?_, ?_⟩
    · intro p hp
      simp [middleware.Panics, hp]
    · intro err herr
      simp [middleware.Panics, herr]

/-- C9 (failing input): for a request whose context carries the `RequestState` of trace
`trace-1`, a handler that calls `panic(nil)` makes the wrapped handler return a nil error:
`recover()` is nil, so the deferred function does not set `err`.  And for a context whose
value is a nil `*RequestState`, a handler that panics makes the wrapped handler panic: the
deferred function dereferences the nil pointer. -/
theorem Panics_loses_nil_panic :
    middleware.Panics "goroutine 1 [running]" (fun _ (_ : Unit) => .panicked none)
        ⟨.present ⟨"trace-1"⟩⟩ () = .returned none ∧
    middleware.Panics "goroutine 1 [running]" (fun _ (_ : Unit) => .panicked (some "boom"))
        ⟨.nilPointer⟩ ()
      = .panicked (some "invalid memory address or nil pointer dereference") :=
  ⟨rfl, rfl⟩

/-! ## The application workflow -/

namespace workflow

theorem SubmitApplication_opens (c : Collaborators) (st : State) (applicationJWT : String)
    (app : Application) (manifest : Manifest)
    (hdecode : c.decode applicationJWT = some app)
    (hmanifest : findManifest st app.ManifestID = some manifest)
    (hsat : c.satisfies app manifest = true)
    (htemplate : findTemplate st manifest.ID = none) :
    SubmitApplication c st applicationJWT
      = (.ok { ID := operationID app (c.freshID st.next), Done := false, Result := none },
          { st with
            operations :=
              ⟨{ ID := operationID app (c.freshID st.next), Done := false, Result := none },
                app⟩ :: st.operations,
            next := st.next + 1 }) := by
  simp [SubmitApplication, hdecode, hmanifest, hsat, htemplate]

theorem SubmitApplication_auto (c : Collaborators) (st : State) (applicationJWT : String)
    (app : Application) (manifest : Manifest) (template : IssuanceTemplate)
    (hdecode : c.decode applicationJWT = some app)
    (hmanifest : findManifest st app.ManifestID = some manifest)
    (hsat : c.satisfies app manifest = true)
    (htemplate : findTemplate st manifest.ID = some template)
    (hauto : template.AutoFulfill = true) :
    SubmitApplication c st applicationJWT
      = match c.issue manifest app with
        | none => (.error .Internal, st)
        | some creds =>
          (.ok { ID := operationID app (c.freshID st.next), Done := true,
                 Result := some (.response
                   { ID := c.freshID (st.next + 1), ManifestID := manifest.ID,
                     ApplicationID := app.ID, Fulfillment := .issued creds.1 creds.2 }) },
            { st with
              operations :=
                ⟨{ ID := operationID app (c.freshID st.next), Done := true,
                   Result := some (.response
                     { ID := c.freshID (st.next + 1), ManifestID := manifest.ID,
                       ApplicationID := app.ID, Fulfillment := .issued creds.1 creds.2 }) },
                  app⟩ :: st.operations,
              responses :=
                { ID := c.freshID (st.next + 1), ManifestID := manifest.ID,
                  ApplicationID := app.ID, Fulfillment := .issued creds.1 creds.2 }
                  :: st.responses,
              next := st.next + 2 }) := by
  simp [SubmitApplication, hdecode, hmanifest, hsat, htemplate, hauto]

theorem findManifest_ID {st : State} {id : String} {manifest : Manifest}
    (h : findManifest st id = some manifest) : manifest.ID = id := by
  have := List.find?_some h
  simpa using this

/-- C7: for a valid application against a stored manifest `manifest` that has no issuance
template, `SubmitApplication` returns an operation with `Done = false` and an id; then
`ReviewApplication` of that id with `approved = true` returns, when the credentials can be
constructed, a credential response whose manifest id is that of `manifest`, and a following
`GetOperation` of the id returns the operation with `Done = true` and that response as its
result.  When credential construction fails the review fails with `Internal` and leaves
the state, and so the pending operation, as it was. -/
theorem review_workflow_scenario (c : Collaborators) (st : State) (applicationJWT : String)
    (app : Application) (manifest : Manifest) (reason : String)
    (hdecode : c.decode applicationJWT = some app)
    (hmanifest : findManifest st app.ManifestID = some manifest)
    (hsat : c.satisfies app manifest = true)
    (htemplate : findTemplate st manifest.ID = none) :
    ∃ (op : Operation) (st1 : State),
      SubmitApplication c st applicationJWT = (.ok op, st1) ∧
      op.Done = false ∧
      op.ID = operationID app (c.freshID st.next) ∧
      match c.issue manifest app with
      | none => ReviewApplication c st1 op.ID true reason = (.error .Internal, st1)
      | some creds =>
        ∃ (resp : CredentialResponse) (st2 : State),
          ReviewApplication c st1 op.ID true reason = (.ok resp, st2) ∧
          resp.ManifestID = manifest.ID ∧
          resp.ManifestID = app.ManifestID ∧
          resp.Fulfillment = .issued creds.1 creds.2 ∧
          GetOperation st2 op.ID
            = .ok { ID := op.ID, Done := true, Result := some (.response resp) } := by
  refine ⟨_, _, SubmitApplication_opens c st applicationJWT app manifest hdecode hmanifest hsat
    htemplate, rfl, rfl, ?_⟩
  have hm : findManifest
      { st with
        operations :=
          ⟨{ ID := operationID app (c.freshID st.next), Done := false, Result := none },
            app⟩ :: st.operations,
        next := st.next + 1 } app.ManifestID = some manifest := hmanifest
  cases hissue : c.issue manifest app with
  | none =>
    simp [ReviewApplication, hm, hissue]
  | some creds =>
    dsimp only
    refine ⟨{ ID := c.freshID (st.next + 1), ManifestID := manifest.ID,
              ApplicationID := app.ID, Fulfillment := .issued creds.1 creds.2 },
      { manifests := st.manifests, templates := st.templates,
        operations :=
          ⟨{ ID := operationID app (c.freshID st.next), Done := true,
             Result := some (.response
               { ID := c.freshID (st.next + 1), ManifestID := manifest.ID,
                 ApplicationID := app.ID, Fulfillment := .issued creds.1 creds.2 }) },
            app⟩ :: st.operations,
        responses :=
          { ID := c.freshID (st.next + 1), ManifestID := manifest.ID,
            ApplicationID := app.ID, Fulfillment := .issued creds.1 creds.2 }
            :: st.responses,
        next := st.next + 2 }, ?_, rfl, findManifest_ID hmanifest, rfl, ?_⟩
    · simp [ReviewApplication, hm, hissue, CompleteOperation, completeIn]
    · simp [GetOperation]

/-- C8: for a valid application against a stored manifest `manifest`: when the manifest has
no issuance template `SubmitApplication` returns an operation with `Done = false`; when its
template declares auto-fulfillment every operation that `SubmitApplication` returns has
`Done = true` and carries a credential response with a non-empty credential list, which is
the response that `GetApplicationResponse` returns for that response's own id, and an
operation is returned whenever the credentials can be constructed (otherwise the call
fails with `Internal`). -/
theorem submit_branches_on_template (c : Collaborators) (st : State)
    (applicationJWT : String) (app : Application) (manifest : Manifest)
    (hdecode : c.decode applicationJWT = some app)
    (hmanifest : findManifest st app.ManifestID = some manifest)
    (hsat : c.satisfies app manifest = true) :
    (findTemplate st manifest.ID = none →
      ∃ (op : Operation) (st1 : State),
        SubmitApplication c st applicationJWT = (.ok op, st1) ∧ op.Done = false) ∧
    (∀ template, findTemplate st manifest.ID = some template → template.AutoFulfill = true →
      (∀ (op : Operation) (st1 : State),
        SubmitApplication c st applicationJWT = (.ok op, st1) →
        op.Done = true ∧
        ∃ resp : CredentialResponse,
          op.Result = some (.response resp) ∧
          resp.Fulfillment.credentials ≠ [] ∧
          GetApplicationResponse st1 resp.ID = .ok resp) ∧
      (∀ creds, c.issue manifest app = some creds →
        ∃ (op : Operation) (st1 : State),
          SubmitApplication c st applicationJWT = (.ok op, st1)) ∧
      (c.issue manifest app = none →
        SubmitApplication c st applicationJWT = (.error .Internal, st))) := by
  refine ⟨?_, ?_⟩
  · intro htemplate
    exact ⟨_, _, SubmitApplication_opens c st applicationJWT app manifest hdecode hmanifest
      hsat htemplate, rfl⟩
  · intro template htemplate hauto
    have hsubmit := SubmitApplication_auto c st applicationJWT app manifest template hdecode
      hmanifest hsat htemplate hauto
    refine ⟨?_, ?_, ?_⟩
    · intro op st1 hop
      rw [hsubmit] at hop
      cases hissue : c.issue manifest app with
      | none => simp [hissue] at hop
      | some creds =>
        simp only [hissue, Prod.mk.injEq, Except.ok.injEq] at hop
        obtain ⟨hop1, hst1⟩ := hop
        subst hop1 hst1
        refine ⟨rfl, _, rfl, ?_, ?_⟩
        · simp [Fulfillment.credentials]
        · simp [GetApplicationResponse]
    · intro creds hissue
      rw [hsubmit, hissue]
      exact ⟨_, _, rfl⟩
    · intro hissue
      rw [hsubmit, hissue]

end workflow

/-! ## The theorems at concrete inputs -/

theorem CreateDID_rejects_mismatched_options_witness :
    ∃ e : Error,
      CreateDID kvStorage memoryKeyStore sampleSdk storeAB []
          { Method := "web", KeyType := "Ed25519", Options := some (.other "key") }
        = (.err e, storeAB, []) := by
  obtain ⟨e, h, _⟩ := CreateDID_rejects_mismatched_options kvStorage memoryKeyStore sampleSdk
    storeAB [] { Method := "web", KeyType := "Ed25519", Options := some (.other "key") }
    (Or.inr ⟨.other "key", "key", rfl, rfl, Or.inl (fun opts h => by cases h)⟩)
  exact ⟨e, h⟩

/-- C2 (counterexample): a request whose requested method is `key` and whose options are
did:web options, declaring `web`, is not rejected: `CreateDID` returns the response and
writes the record and the key.  And a request whose options are a typed nil pointer, which
are not `CreateWebDIDOptions`, ends in a panic, not in a validation error. -/
theorem CreateDID_options_check_counterexample :
    createA_asKey.Method = "key" ∧
    createA_asKey.Options = some (.web { DIDWebID := "did:web:a" }) ∧
    (CreateDIDOptions.web { DIDWebID := "did:web:a" }).Method = some "web" ∧
    CreateDID kvStorage memoryKeyStore sampleSdk storeB [] createA_asKey
      = (.ok responseA, storeB_createdA, [keyOfA]) ∧
    CreateDID kvStorage memoryKeyStore sampleSdk storeB [] createNilPointer
      = (.panic "invalid memory address or nil pointer dereference", storeB, []) :=
  ⟨rfl, rfl, rfl, by rfl, by rfl⟩

theorem CreateDID_success_writes_witness :
    ∃ opts : CreateWebDIDOptions,
      createA.Options = some (.web opts) ∧
      kvStorage.StoreDID storeB
          { ID := opts.DIDWebID, DID := sampleDoc "did:web:a" "pubNew", SoftDeleted := false }
        = (storeB_createdA, none) := by
  obtain ⟨opts, _, _, h1, h2, _⟩ := CreateDID_success_writes kvStorage memoryKeyStore sampleSdk
    storeB storeB_createdA [] [keyOfA] createA responseA (by rfl)
  exact ⟨opts, h1, h2⟩

theorem SoftDeleteDID_hides_record_keeps_lookup_witness :
    SoftDeleteDID kvStorage storeAB ⟨"did:web:a"⟩ = (storeAB_deletedA, none) ∧
    GetDID kvStorage (SoftDeleteDID kvStorage storeAB ⟨"did:web:a"⟩).1 ⟨"did:web:a"⟩
      = .ok ⟨recordA.DID⟩ ∧
    GetDIDs kvStorage (SoftDeleteDID kvStorage storeAB ⟨"did:web:a"⟩).1
      = .ok ⟨[recordB.DID]⟩ :=
  have h := SoftDeleteDID_hides_record_keeps_lookup storeAB "did:web:a" recordA (by rfl)
  ⟨by rfl, h.2.2.1, h.2.2.2.1.trans (by rfl)⟩

/-- C1 (counterexample): in a store where the live records of `did:web:a` and `did:web:b`
carry equal documents, `SoftDeleteDID` of `did:web:a` returns success and `GetDIDs` after
it still contains the document of the record of `did:web:a`. -/
theorem SoftDeleteDID_equal_document_counterexample :
    kvStorage.GetDIDDefault storeShared "did:web:a" = .ok (some recordA_sharing) ∧
    (SoftDeleteDID kvStorage storeShared ⟨"did:web:a"⟩).2 = none ∧
    GetDIDs kvStorage (SoftDeleteDID kvStorage storeShared ⟨"did:web:a"⟩).1
      = .ok ⟨[recordA_sharing.DID]⟩ ∧
    recordA_sharing.DID ∈ [recordA_sharing.DID] :=
  ⟨by rfl, by rfl, by rfl, List.mem_singleton.mpr rfl⟩

theorem CreateDID_existing_id_conflicts_witness :
    CreateDID kvStorage memoryKeyStore sampleSdk storeAB_deletedA [] createA
      = (.err (errorsWrap (conflictError "did:web:a") "could not store did:web value"),
          storeAB_deletedA, []) ∧
    (CreateDID kvStorage memoryKeyStore sampleSdk storeAB_deletedA [] createA).2.1.get
        "did:web:a" = some { recordA with SoftDeleted := true } :=
  have h := CreateDID_existing_id_conflicts memoryKeyStore sampleSdk storeAB_deletedA []
    createA { DIDWebID := "did:web:a" } { recordA with SoftDeleted := true } (by rfl)
    (by decide)
  ⟨h.2.2 (7 : Nat) (11 : Nat) [7] (sampleDoc "did:web:a" "pubNew") (by rfl) (by rfl) (by rfl)
    (by rfl) (by rfl), h.2.1⟩

theorem CreateDID_keeps_record_when_StoreKey_fails_witness :
    ∃ db1 : KVStore,
      CreateDID kvStorage failingKeyStore sampleSdk storeB [] createA
        = (.err (errorsWrap ⟨"key store unavailable"⟩ "could not store did:web private key"),
            db1, []) ∧
      GetDID kvStorage db1 ⟨"did:web:a"⟩ = .ok ⟨sampleDoc "did:web:a" "pubNew"⟩ := by
  obtain ⟨db1, h1, _, h3, _⟩ := CreateDID_keeps_record_when_StoreKey_fails failingKeyStore
    sampleSdk storeB [] [] createA { DIDWebID := "did:web:a" } (7 : Nat) (11 : Nat)
    [7] [11] (sampleDoc "did:web:a" "pubNew")
    { ID := "did:web:a#owner", Controller := "did:web:a", PublicKeyBase58 := "pubNew" } []
    ⟨"key store unavailable"⟩
    (by rfl) (by rfl) (by rfl) (by rfl) (by rfl) (by rfl) (by rfl) (by rfl) (by rfl) (by rfl)
    (by rfl)
  exact ⟨db1, h1, h3⟩

theorem Panics_passes_result_through_at_trace :
    middleware.Panics "goroutine 1 [running]" (fun _ (_ : Unit) => .panicked (some "boom"))
        ⟨.present ⟨"trace-1"⟩⟩ ()
      = .returned (some (middleware.errorfTrace "trace-1" "goroutine 1 [running]")) :=
  (Panics_passes_result_through "goroutine 1 [running]"
    (fun _ (_ : Unit) => .panicked (some "boom")) ⟨.present ⟨"trace-1"⟩⟩ () ⟨"trace-1"⟩
    rfl).1 "boom" rfl

theorem workflow.review_workflow_scenario_witness :
    ∃ (op : workflow.Operation) (st1 : workflow.State),
      workflow.SubmitApplication workflow.sampleCollaborators workflow.reviewState "jwt-1"
        = (.ok op, st1) ∧
      op.Done = false ∧
      ∃ (resp : workflow.CredentialResponse) (st2 : workflow.State),
        workflow.ReviewApplication workflow.sampleCollaborators st1 op.ID true "ok"
          = (.ok resp, st2) ∧
        resp.ManifestID = "manifest-1" ∧
        workflow.GetOperation st2 op.ID
          = .ok { ID := op.ID, Done := true, Result := some (.response resp) } := by
  obtain ⟨op, st1, h1, h2, _, h4⟩ := workflow.review_workflow_scenario
    workflow.sampleCollaborators workflow.reviewState "jwt-1" workflow.sampleApplication
    workflow.sampleManifest "ok" (by rfl) (by rfl) (by rfl) (by rfl)
  obtain ⟨resp, st2, h5, h6, _, _, h9⟩ := h4
  exact ⟨op, st1, h1, h2, resp, st2, h5, h6, h9⟩

theorem workflow.submit_branches_on_template_witness :
    ∃ (op : workflow.Operation) (st1 : workflow.State),
      workflow.SubmitApplication workflow.sampleCollaborators workflow.autoState "jwt-1"
        = (.ok op, st1) ∧
      op.Done = true ∧
      ∃ resp : workflow.CredentialResponse,
        op.Result = some (.response resp) ∧
        resp.Fulfillment.credentials ≠ [] ∧
        workflow.GetApplicationResponse st1 resp.ID = .ok resp := by
  have h := (workflow.submit_branches_on_template workflow.sampleCollaborators
    workflow.autoState "jwt-1" workflow.sampleApplication workflow.sampleManifest
    (by rfl) (by rfl) (by rfl)).2 { ManifestID := "manifest-1", AutoFulfill := true }
    (by rfl) rfl
  obtain ⟨op, st1, hop⟩ := h.2.1 _ rfl
  exact ⟨op, st1, hop, h.1 op st1 hop⟩

end SSI
